import Mathlib

/-!
Shallow embedding of `src/hw2influxdb/hw2influxdb.py` (heiparta/hw2influxdb).

The program is a small asyncio daemon: it loads a YAML configuration,
connects to InfluxDB, and starts one `collect_data` loop per configured
meter.  Each loop sleeps for the meter's interval, performs one HTTP GET
against `http://{host}/api/v1/data`, validates the JSON body against the
pydantic model `MeterData`, builds a single InfluxDB point, and writes it
(or, under `--dry-run`, logs it).  All errors inside the per-tick `try`
block are logged and swallowed; the loop itself never terminates.

The embedding below models:
  * JSON values and the pydantic models (`MeterConfig`, `InfluxDBConfig`,
    `CheckerConfig`, `MeterData`) as parse functions over JSON;
  * the per-tick pipeline and the loop as functions from an oracle
    (network outcome, clock reading, possible exceptions) to a trace of
    observable events plus a loop outcome;
  * `run` (config load, client construction, `asyncio.gather` over the
    meter loops) as a function to a trace plus a process outcome.
External-library behaviour that the source relies on is modelled from the
libraries' documented contracts: `aiohttp` with `raise_for_status=True`
raises for HTTP statuses `>= 400`; responses with status 1xx, 204 or 304
carry no message body (RFC 7230 §3.3.3), so `response.json()` fails on
them; pydantic v1 validators coerce (an `int` field accepts floats, bools
and numeric strings via `int(v)`, a `float` field accepts ints, bools and
numeric strings via `float(v)`, a `str` field accepts numbers via
`str(v)`); and `datetime.now(timezone.utc).isoformat()` yields an ISO-8601
string with a `+00:00` UTC offset.
-/

namespace Hw2Influx

/-- JSON values as decoded by `await response.json()` / `yaml.safe_load`. -/
inductive JsonValue where
  | jnull : JsonValue
  | jbool (b : Bool) : JsonValue
  | jint (n : Int) : JsonValue
  | jfloat (q : ℚ) : JsonValue
  | jstr (s : String) : JsonValue
  | jarr (xs : List JsonValue) : JsonValue
  | jobj (kvs : List (String × JsonValue)) : JsonValue

/-- Key lookup in a decoded JSON object (first binding wins, as in a dict). -/
def jlookup : List (String × JsonValue) → String → Option JsonValue
  | [], _ => none
  | (k, v) :: rest, key => if k = key then some v else jlookup rest key

/-- Decimal value of a digit string (callers check `Char.isDigit` first). -/
def digitsVal (cs : List Char) : Nat :=
  cs.foldl (fun acc c => acc * 10 + (c.toNat - 48)) 0

/-- Python's `int(str)` on its plain forms: an optional sign followed by
decimal digits.  (Surrounding whitespace, underscore grouping and
non-ASCII digits, which CPython also accepts, are not modelled.) -/
def signedDigitsVal? (cs : List Char) : Option Int :=
  match cs with
  | [] => none
  | c :: rest =>
    if c = Char.ofNat 45 then
      if rest.isEmpty then none
      else if rest.all Char.isDigit then some (-(digitsVal rest : Int)) else none
    else if c = Char.ofNat 43 then
      if rest.isEmpty then none
      else if rest.all Char.isDigit then some ((digitsVal rest : Int)) else none
    else if (c :: rest).all Char.isDigit then some ((digitsVal (c :: rest) : Int))
    else none

/-- Python's `int(str)` over a whole string. -/
def pyIntOfString? (s : String) : Option Int :=
  signedDigitsVal? s.data

/-- The unsigned mantissa of a Python float literal: digits with an
optional decimal point on either side (`"5"`, `"5."`, `".5"`, `"5.25"`). -/
def mantissaVal? (cs : List Char) : Option ℚ :=
  match cs.splitOn (Char.ofNat 46) with
  | [whole] =>
    if whole.isEmpty then none
    else if whole.all Char.isDigit then some ((digitsVal whole : ℚ)) else none
  | [ip, fp] =>
    if ip.isEmpty && fp.isEmpty then none
    else if ip.all Char.isDigit && fp.all Char.isDigit then
      some ((digitsVal ip : ℚ) + (digitsVal fp : ℚ) / ((10 : ℚ) ^ fp.length))
    else none
  | _ => none

/-- Python's `float(str)` on its decimal forms: optional sign, mantissa,
optional `e`/`E` exponent.  (Surrounding whitespace, underscore grouping,
and the `inf`/`nan` words — not representable in `ℚ` — are not modelled.) -/
def pyFloatOfString? (s : String) : Option ℚ :=
  match s.data with
  | [] => none
  | c :: rest =>
    let p :=
      if c = Char.ofNat 45 then ((-1 : ℚ), rest)
      else if c = Char.ofNat 43 then ((1 : ℚ), rest)
      else ((1 : ℚ), c :: rest)
    match (p.2.map Char.toLower).splitOn (Char.ofNat 101) with
    | [mant] => (mantissaVal? mant).map fun m => p.1 * m
    | [mant, ex] => do
        let m ← mantissaVal? mant
        let e ← signedDigitsVal? ex
        some (p.1 * m * (10 : ℚ) ^ e)
    | _ => none

/-- Python's `int(float)`: truncation toward zero. -/
def ratTrunc (q : ℚ) : Int :=
  q.num.tdiv (q.den : Int)

/-- The decimal rendering Python's `str(float)` produces for floats that
came from decimal literals (always terminating there); the fuel bounds the
fraction digits. -/
def fracDigits : Nat → Nat → Nat → List Char
  | 0, _, _ => []
  | _, 0, _ => []
  | fuel + 1, r, den =>
      Char.ofNat (48 + (r * 10) / den) :: fracDigits fuel ((r * 10) % den) den

/-- Python's `str(float)` for the terminating-decimal rationals that YAML
float literals decode to (`str(450.2) = "450.2"`, `str(5.0) = "5.0"`). -/
def pyFloatRepr (q : ℚ) : String :=
  (if q < 0 then "-" else "") ++ toString (q.num.natAbs / q.den) ++ "." ++
    (match fracDigits 40 (q.num.natAbs % q.den) q.den with
     | [] => "0"
     | ds => String.mk ds)

/-- Extract a required `str`-typed field.  Pydantic v1's `str_validator`
keeps strings and coerces numbers (and bools, which are `int` instances)
via `str(v)`; `None`, lists and mappings are rejected. -/
def getStr? (kvs : List (String × JsonValue)) (k : String) : Option String :=
  match jlookup kvs k with
  | some (JsonValue.jstr s) => some s
  | some (JsonValue.jbool b) => some (if b then "True" else "False")
  | some (JsonValue.jint n) => some (toString n)
  | some (JsonValue.jfloat q) => some (pyFloatRepr q)
  | _ => none

/-- Extract a required `int`-typed field.  Pydantic v1's `int_validator`
keeps ints and coerces bools, floats (truncating) and numeric strings via
`int(v)`; `None`, lists, mappings and non-numeric strings are rejected. -/
def getInt? (kvs : List (String × JsonValue)) (k : String) : Option Int :=
  match jlookup kvs k with
  | some (JsonValue.jint n) => some n
  | some (JsonValue.jbool b) => some (if b then 1 else 0)
  | some (JsonValue.jfloat q) => some (ratTrunc q)
  | some (JsonValue.jstr s) => pyIntOfString? s
  | _ => none

/-- Extract a required `float`-typed field.  Pydantic v1's `float_validator`
keeps floats and coerces ints, bools and numeric strings via `float(v)`;
`None`, lists, mappings and non-numeric strings are rejected. -/
def getFloat? (kvs : List (String × JsonValue)) (k : String) : Option ℚ :=
  match jlookup kvs k with
  | some (JsonValue.jint n) => some (n : ℚ)
  | some (JsonValue.jfloat q) => some q
  | some (JsonValue.jbool b) => some (if b then 1 else 0)
  | some (JsonValue.jstr s) => pyFloatOfString? s
  | _ => none

/-- Python exception classes that the embedded code can raise or observe. -/
inductive PyExc where
  | fileNotFoundError : PyExc
  | yamlError : PyExc
  | validationError : PyExc
  | typeError : PyExc
  | clientConnectionError : PyExc
  | clientResponseError (status : Nat) : PyExc
  | contentTypeError : PyExc
  | influxDBError : PyExc
  | other (msg : String) : PyExc
  deriving DecidableEq

/-- An exception counts as a configuration error when it arises from reading
or validating the configuration file (lines 111-113 of the source). -/
def PyExc.isConfigError : PyExc → Bool
  | PyExc.fileNotFoundError => true
  | PyExc.yamlError => true
  | PyExc.validationError => true
  | _ => false

/-- Source lines 34-37: `class MeterConfig(BaseModel)`. -/
structure MeterConfig where
  name : String
  host : String
  interval : Int
  deriving DecidableEq

/-- Pydantic construction of `MeterConfig` from a decoded YAML mapping:
`name` and `host` are required strings, `interval` is an `int` with
default `10` when the key is absent. -/
def MeterConfig.parse (j : JsonValue) : Except PyExc MeterConfig :=
  match j with
  | JsonValue.jobj kvs =>
    match getStr? kvs "name", getStr? kvs "host" with
    | some n, some h =>
      match jlookup kvs "interval" with
      | none => Except.ok ⟨n, h, 10⟩
      | some (JsonValue.jint i) => Except.ok ⟨n, h, i⟩
      | some _ => Except.error PyExc.validationError
    | _, _ => Except.error PyExc.validationError
  | _ => Except.error PyExc.validationError

/-- Source lines 27-31: `class InfluxDBConfig(BaseModel)`. -/
structure InfluxDBConfig where
  host : String
  port : Int
  database : String
  retention_policy : Option String
  deriving DecidableEq

/-- Pydantic construction of `InfluxDBConfig`: `host` required string,
`port` defaults to `8086`, `database` defaults to `"energy"`,
`retention_policy` is `Optional[str]` defaulting to `None`. -/
def InfluxDBConfig.parse (j : JsonValue) : Except PyExc InfluxDBConfig :=
  match j with
  | JsonValue.jobj kvs =>
    match getStr? kvs "host" with
    | some h =>
      match
        (match jlookup kvs "port" with
         | none => some (8086 : Int)
         | some (JsonValue.jint p) => some p
         | some _ => none),
        (match jlookup kvs "database" with
         | none => some "energy"
         | some (JsonValue.jstr d) => some d
         | some _ => none),
        (match jlookup kvs "retention_policy" with
         | none => some (none : Option String)
         | some JsonValue.jnull => some none
         | some (JsonValue.jstr r) => some (some r)
         | some _ => none) with
      | some p, some d, some r => Except.ok ⟨h, p, d, r⟩
      | _, _, _ => Except.error PyExc.validationError
    | none => Except.error PyExc.validationError
  | _ => Except.error PyExc.validationError

/-- Source lines 40-42: `class CheckerConfig(BaseModel)`. -/
structure CheckerConfig where
  influxdb : InfluxDBConfig
  meters : List MeterConfig
  deriving DecidableEq

/-- Pydantic validation of each element of the `meters` list. -/
def parseMeters : List JsonValue → Except PyExc (List MeterConfig)
  | [] => Except.ok []
  | j :: rest => do
      let m ← MeterConfig.parse j
      let ms ← parseMeters rest
      Except.ok (m :: ms)

/-- Pydantic construction of `CheckerConfig`: both `influxdb` and `meters`
are required, `meters` must be a list of valid meter entries. -/
def CheckerConfig.parse (j : JsonValue) : Except PyExc CheckerConfig :=
  match j with
  | JsonValue.jobj kvs =>
    match jlookup kvs "influxdb", jlookup kvs "meters" with
    | some ij, some (JsonValue.jarr ms) => do
        let icfg ← InfluxDBConfig.parse ij
        let meters ← parseMeters ms
        Except.ok ⟨icfg, meters⟩
    | _, _ => Except.error PyExc.validationError
  | _ => Except.error PyExc.validationError

/-- Source lines 45-55: `class MeterData(BaseModel)` — the validated meter
reading with its seven required fields. -/
structure MeterData where
  wifi_strength : Int
  total_power_import_kwh : ℚ
  total_power_export_kwh : ℚ
  active_power_w : ℚ
  active_power_l1_w : ℚ
  active_power_l2_w : ℚ
  active_power_l3_w : ℚ
  deriving DecidableEq

/-- The seven required field names of the `MeterData` schema. -/
def requiredFields : List String :=
  ["wifi_strength", "total_power_import_kwh", "total_power_export_kwh",
   "active_power_w", "active_power_l1_w", "active_power_l2_w",
   "active_power_l3_w"]

/-- A binding pydantic v1 can never coerce to `int` or `float`: the key is
absent, or its value is `None`, a list or a mapping (for which `int(v)` and
`float(v)` raise `TypeError` unconditionally). -/
def nonCoercible : Option JsonValue → Bool
  | none => true
  | some JsonValue.jnull => true
  | some (JsonValue.jarr _) => true
  | some (JsonValue.jobj _) => true
  | _ => false

/-- Presence-and-coercibility check for the seven required `MeterData`
fields over a decoded JSON object; extra keys play no role. -/
def requiredOk (kvs : List (String × JsonValue)) : Bool :=
  (getInt? kvs "wifi_strength").isSome &&
  (getFloat? kvs "total_power_import_kwh").isSome &&
  (getFloat? kvs "total_power_export_kwh").isSome &&
  (getFloat? kvs "active_power_w").isSome &&
  (getFloat? kvs "active_power_l1_w").isSome &&
  (getFloat? kvs "active_power_l2_w").isSome &&
  (getFloat? kvs "active_power_l3_w").isSome

/-- Field-by-field pydantic v1 validation of `MeterData` from a decoded
JSON object: every required field must be present with a value of — or
coercible to — its annotated type; keys outside the schema are ignored
(pydantic's default `Extra.ignore`: the `allow_extra` key in the source's
`Config` is not a recognised pydantic option, so extras are tolerated and
dropped). -/
def MeterData.fromDict (kvs : List (String × JsonValue)) : Option MeterData :=
  (getInt? kvs "wifi_strength").bind fun ws =>
  (getFloat? kvs "total_power_import_kwh").bind fun ti =>
  (getFloat? kvs "total_power_export_kwh").bind fun te =>
  (getFloat? kvs "active_power_w").bind fun ap =>
  (getFloat? kvs "active_power_l1_w").bind fun l1 =>
  (getFloat? kvs "active_power_l2_w").bind fun l2 =>
  (getFloat? kvs "active_power_l3_w").map fun l3 =>
  ⟨ws, ti, te, ap, l1, l2, l3⟩

/-- Source line 83: `MeterData(**data)` — raises pydantic `ValidationError`
when a required field is missing or mistyped, and `TypeError` when the
decoded body is not a JSON object (so `**` cannot be applied). -/
def MeterData.parse (j : JsonValue) : Except PyExc MeterData :=
  match j with
  | JsonValue.jobj kvs =>
    match MeterData.fromDict kvs with
    | some md => Except.ok md
    | none => Except.error PyExc.validationError
  | _ => Except.error PyExc.typeError

/-- Values appearing in an InfluxDB point's field set. -/
inductive FieldValue where
  | fint (n : Int) : FieldValue
  | ffloat (q : ℚ) : FieldValue
  deriving DecidableEq

/-- Source line 94: `parsed_data.dict()` — the pydantic export of exactly the
seven declared fields, in declaration order. -/
def MeterData.dict (d : MeterData) : List (String × FieldValue) :=
  [("wifi_strength", FieldValue.fint d.wifi_strength),
   ("total_power_import_kwh", FieldValue.ffloat d.total_power_import_kwh),
   ("total_power_export_kwh", FieldValue.ffloat d.total_power_export_kwh),
   ("active_power_w", FieldValue.ffloat d.active_power_w),
   ("active_power_l1_w", FieldValue.ffloat d.active_power_l1_w),
   ("active_power_l2_w", FieldValue.ffloat d.active_power_l2_w),
   ("active_power_l3_w", FieldValue.ffloat d.active_power_l3_w)]

/-- A UTC wall-clock instant as observed by `datetime.now(timezone.utc)`. -/
structure UtcDateTime where
  year : Nat
  month : Nat
  day : Nat
  hour : Nat
  minute : Nat
  second : Nat
  microsecond : Nat
  deriving DecidableEq

/-- Left-pad a decimal rendering with zeros to the given width. -/
def padNat (width : Nat) (n : Nat) : String :=
  String.mk (List.replicate (width - (toString n).length) (Char.ofNat 48)) ++ toString n

/-- The date-and-time part of Python's `datetime.isoformat()` (microseconds
are printed only when nonzero, as CPython does). -/
def UtcDateTime.isoBase (d : UtcDateTime) : String :=
  padNat 4 d.year ++ "-" ++ padNat 2 d.month ++ "-" ++ padNat 2 d.day ++ "T" ++
    padNat 2 d.hour ++ ":" ++ padNat 2 d.minute ++ ":" ++ padNat 2 d.second ++
    (if d.microsecond = 0 then "" else "." ++ padNat 6 d.microsecond)

/-- Source line 93: `datetime.now(timezone.utc).isoformat()` — an ISO-8601
timestamp carrying the `+00:00` UTC offset. -/
def UtcDateTime.isoformat (d : UtcDateTime) : String :=
  d.isoBase ++ "+00:00"

/-- One element of the `json_body` list handed to `write_points`. -/
structure DataPoint where
  measurement : String
  tags : List (String × String)
  time : String
  fields : List (String × FieldValue)
  deriving DecidableEq

/-- Source lines 87-96: the `json_body` singleton list built from the meter
name, the freshly read clock, and the validated reading. -/
def make_json_body (meterName : String) (timeStr : String) (d : MeterData) :
    List DataPoint :=
  [⟨"energy_consumption", [("meter", meterName)], timeStr, d.dict⟩]

/-- The configuration of the `aiohttp.ClientSession` a poll loop creates. -/
structure SessionParams where
  timeoutTotal : Nat
  raiseForStatus : Bool
  deriving DecidableEq

/-- Source lines 70-71: `ClientTimeout(total=10)` and
`ClientSession(timeout=timeout, raise_for_status=True)`. -/
def collect_data_session : SessionParams :=
  ⟨10, true⟩

/-- Source line 73 / line 21: `API_URL.format(host=meter.host)` with
`API_URL = "http://.../api/v1/data"`; pure string interpolation. -/
def api_url_format (host : String) : String :=
  "http://" ++ host ++ "/api/v1/data"

/-- The outcome of one HTTP exchange, as decided by the network: either a
connection-level failure (refusal, timeout) or a response with a status and
an optionally JSON-decodable body (`none` models a body `.json()` rejects). -/
inductive HttpOutcome where
  | failure : HttpOutcome
  | response (status : Nat) (body : Option JsonValue) : HttpOutcome

/-- Whether an HTTP response of this status may carry a message body:
RFC 7230 §3.3.3 forbids one on 1xx, 204 and 304, and aiohttp's response
parser accordingly delivers an empty payload for those statuses whatever
the server sends. -/
def bodyAllowed (status : Nat) : Bool :=
  !(decide (status < 200) || decide (status = 204) || decide (status = 304))

/-- Source lines 58-60: `get_json` performs `session.get` and decodes the
body.  With `raise_for_status=True` aiohttp raises `ClientResponseError`
exactly when the (final, post-redirect) response status is `>= 400` (its
documented contract); connection failures raise a client connection error;
on a payload-less status (1xx/204/304) or a body `.json()` cannot decode,
`response.json()` raises (`ContentTypeError`/`JSONDecodeError`, modelled
as one decode error). -/
def get_json (s : SessionParams) (o : HttpOutcome) : Except PyExc JsonValue :=
  match o with
  | HttpOutcome.failure => Except.error PyExc.clientConnectionError
  | HttpOutcome.response status body =>
    if s.raiseForStatus && decide (400 ≤ status) then
      Except.error (PyExc.clientResponseError status)
    else if bodyAllowed status then
      match body with
      | some j => Except.ok j
      | none => Except.error PyExc.contentTypeError
    else Except.error PyExc.contentTypeError

/-- Observable events of a poll loop, in program order. -/
inductive Event where
  | sleep (seconds : Int) : Event
  | httpGet (url : String) (timeoutTotal : Nat) (raiseForStatus : Bool) : Event
  | logDebugData (d : MeterData) : Event
  | readClock (t : UtcDateTime) : Event
  | logDebugDryRun (body : List DataPoint) : Event
  | writePoints (body : List DataPoint) (rp : Option String) : Event
  | logException (e : PyExc) : Event
  deriving DecidableEq

/-- Recogniser for interval-sleep events. -/
def Event.isSleep : Event → Bool
  | Event.sleep _ => true
  | _ => false

/-- Recogniser for HTTP GET events. -/
def Event.isHttpGet : Event → Bool
  | Event.httpGet _ _ _ => true
  | _ => false

/-- Recogniser for sink-write events. -/
def Event.isWritePoints : Event → Bool
  | Event.writePoints _ _ => true
  | _ => false

/-- Everything the environment decides during one iteration of the loop:
whether the interval sleep itself raises, what the HTTP exchange yields,
what the UTC clock reads at the transform step, and whether the InfluxDB
write raises. -/
structure TickOracle where
  sleepExc : Option PyExc
  http : HttpOutcome
  now : UtcDateTime
  writeExc : Option PyExc

/-- Whether creating the `aiohttp.ClientSession` (source line 71, before the
loop and outside any handler) raises. -/
structure SetupOracle where
  sessionExc : Option PyExc
  deriving DecidableEq

/-- Source lines 98-102: deliver the point — log it under `--dry-run`,
otherwise call `influx.write_points(json_body, retention_policy=...)`,
which may raise. -/
def tick_deliver (m : MeterConfig) (icfg : InfluxDBConfig) (dry : Bool)
    (o : TickOracle) (parsed : MeterData) : List Event :=
  if dry then
    [Event.logDebugDryRun (make_json_body m.name (UtcDateTime.isoformat o.now) parsed)]
  else
    match o.writeExc with
    | some e =>
      [Event.writePoints (make_json_body m.name (UtcDateTime.isoformat o.now) parsed)
         icfg.retention_policy,
       Event.logException e]
    | none =>
      [Event.writePoints (make_json_body m.name (UtcDateTime.isoformat o.now) parsed)
         icfg.retention_policy]

/-- Source lines 78-106: the body of the per-tick `try` block after the GET
has been issued — decode, validate, log the parsed reading, read the clock
while building `json_body`, deliver; any raised exception is logged by the
`except` clause and the loop continues. -/
def tick_pipeline (m : MeterConfig) (icfg : InfluxDBConfig) (dry : Bool)
    (o : TickOracle) : List Event :=
  match get_json collect_data_session o.http with
  | Except.error e => [Event.logException e]
  | Except.ok j =>
    match MeterData.parse j with
    | Except.error e => [Event.logException e]
    | Except.ok parsed =>
      Event.logDebugData parsed :: Event.readClock o.now ::
        tick_deliver m icfg dry o parsed

/-- One full Polling phase: the single GET against the meter URL followed by
the rest of the pipeline.  The GET is attempted exactly once per tick. -/
def tick_try (m : MeterConfig) (icfg : InfluxDBConfig) (dry : Bool)
    (url : String) (o : TickOracle) : List Event :=
  Event.httpGet url collect_data_session.timeoutTotal collect_data_session.raiseForStatus ::
    tick_pipeline m icfg dry o

/-- The error, if any, that the per-tick `try` block raises and the
`except Exception` clause catches for a given oracle. -/
def tick_error (dry : Bool) (o : TickOracle) : Option PyExc :=
  match get_json collect_data_session o.http with
  | Except.error e => some e
  | Except.ok j =>
    match MeterData.parse j with
    | Except.error e => some e
    | Except.ok _ => if dry then none else o.writeExc

/-- How a poll loop run ends over a finite oracle prefix: still `running`
(the `while True` loop never exits by itself), or `raised` because an
exception escaped outside the per-tick handler. -/
inductive LoopOutcome where
  | running : LoopOutcome
  | raised (e : PyExc) : LoopOutcome
  deriving DecidableEq

/-- Source lines 75-106: the `while True` loop, one oracle per iteration.
Each iteration first awaits `asyncio.sleep(meter.interval)` (outside the
`try`: an exception there escapes the loop), then runs the guarded
pipeline, which always falls through to the next iteration. -/
def run_ticks (m : MeterConfig) (icfg : InfluxDBConfig) (dry : Bool)
    (url : String) : List TickOracle → List Event × LoopOutcome
  | [] => ([], LoopOutcome.running)
  | o :: rest =>
    match o.sleepExc with
    | some e => ([], LoopOutcome.raised e)
    | none =>
      (Event.sleep m.interval ::
         (tick_try m icfg dry url o ++ (run_ticks m icfg dry url rest).1),
       (run_ticks m icfg dry url rest).2)

/-- Source lines 63-106: `collect_data` — create the session and the URL
(outside the loop, outside any handler), then run the polling loop. -/
def collect_data (m : MeterConfig) (icfg : InfluxDBConfig) (dry : Bool)
    (setup : SetupOracle) (ticks : List TickOracle) : List Event × LoopOutcome :=
  match setup.sessionExc with
  | some e => ([], LoopOutcome.raised e)
  | none => run_ticks m icfg dry (api_url_format m.host) ticks

/-- What the configuration file provides: it may be missing (`open` raises
`FileNotFoundError`), unparsable (`yaml.safe_load` raises), or a decoded
document that pydantic then validates. -/
inductive ConfigSource where
  | missing : ConfigSource
  | unparsable : ConfigSource
  | content (j : JsonValue) : ConfigSource

/-- Source lines 110-113: read and validate the configuration file. -/
def load_config : ConfigSource → Except PyExc CheckerConfig
  | ConfigSource.missing => Except.error PyExc.fileNotFoundError
  | ConfigSource.unparsable => Except.error PyExc.yamlError
  | ConfigSource.content j => CheckerConfig.parse j

/-- How the whole process run ends over finite oracle prefixes. -/
inductive ProcessOutcome where
  | configAbort (e : PyExc) : ProcessOutcome
  | running : ProcessOutcome
  | crashed (e : PyExc) : ProcessOutcome
  deriving DecidableEq

/-- The exceptions escaping the individual meter loops. -/
def raisedErrors (runs : List (List Event × LoopOutcome)) : List PyExc :=
  runs.filterMap fun r =>
    match r.2 with
    | LoopOutcome.raised e => some e
    | LoopOutcome.running => none

/-- Source line 128: `asyncio.gather(*tasks)` — the combined trace of all
loops; with the default `return_exceptions=False` the first exception that
escapes any loop propagates and crashes the process, otherwise the gather
(and hence the process) is still running. -/
def gather (runs : List (List Event × LoopOutcome)) : List Event × ProcessOutcome :=
  ((runs.map Prod.fst).flatten,
   match raisedErrors runs with
   | [] => ProcessOutcome.running
   | e :: _ => ProcessOutcome.crashed e)

/-- Source lines 109-128: `run` — load the configuration (any failure there
propagates immediately, before the InfluxDB client is built and before any
loop is started), then start one `collect_data` task per meter and gather
them.  The oracle list supplies one `(setup, ticks)` pair per meter. -/
def run (src : ConfigSource) (dry : Bool)
    (oracles : List (SetupOracle × List TickOracle)) : List Event × ProcessOutcome :=
  match load_config src with
  | Except.error e => ([], ProcessOutcome.configAbort e)
  | Except.ok cfg =>
      gather ((cfg.meters.zip oracles).map fun p =>
        collect_data p.1 cfg.influxdb dry p.2.1 p.2.2)

/-! Concrete fixtures used by witnesses and counterexamples.  The meter and
the reading reproduce the spec's `kitchen` scenario. -/

/-- The `kitchen` meter of the spec's scenario: host `10.0.0.5`, interval 5. -/
def meter0 : MeterConfig :=
  ⟨"kitchen", "10.0.0.5", 5⟩

/-- A sink configuration with the defaults and no retention policy. -/
def icfg0 : InfluxDBConfig :=
  ⟨"influx.local", 8086, "energy", none⟩

/-- A fixed UTC instant for clock oracles. -/
def dt0 : UtcDateTime :=
  ⟨2024, 5, 17, 12, 0, 0, 123456⟩

/-- The scenario response body: the seven required fields, exactly. -/
def goodKvs : List (String × JsonValue) :=
  [("wifi_strength", JsonValue.jint (-50)),
   ("total_power_import_kwh", JsonValue.jfloat (241/2)),
   ("total_power_export_kwh", JsonValue.jfloat 0),
   ("active_power_w", JsonValue.jfloat (2251/5)),
   ("active_power_l1_w", JsonValue.jfloat 150),
   ("active_power_l2_w", JsonValue.jfloat (1501/10)),
   ("active_power_l3_w", JsonValue.jfloat (1501/10))]

/-- The validated reading the scenario body parses to. -/
def goodMd : MeterData :=
  ⟨-50, 241/2, 0, 2251/5, 150, 1501/10, 1501/10⟩

/-- A tick on which everything succeeds: HTTP 200 with the scenario body. -/
def goodTick : TickOracle :=
  ⟨none, HttpOutcome.response 200 (some (JsonValue.jobj goodKvs)), dt0, none⟩

/-- A tick on which the HTTP exchange fails at the connection level. -/
def failTick : TickOracle :=
  ⟨none, HttpOutcome.failure, dt0, none⟩

/-- A tick answered `304 Not Modified`; whatever the server sent along, a
304 delivers no payload. -/
def tick304 : TickOracle :=
  ⟨none, HttpOutcome.response 304 (some (JsonValue.jobj goodKvs)), dt0, none⟩

/-- A tick answered `303 See Other` without a `Location` header: aiohttp
cannot follow the redirect and returns the 303 response itself, body and
all. -/
def tick303 : TickOracle :=
  ⟨none, HttpOutcome.response 303 (some (JsonValue.jobj goodKvs)), dt0, none⟩

/-- The scenario body with `wifi_strength` sent as a string. -/
def strKvs : List (String × JsonValue) :=
  [("wifi_strength", JsonValue.jstr "-50"),
   ("total_power_import_kwh", JsonValue.jfloat (241/2)),
   ("total_power_export_kwh", JsonValue.jfloat 0),
   ("active_power_w", JsonValue.jfloat (2251/5)),
   ("active_power_l1_w", JsonValue.jfloat 150),
   ("active_power_l2_w", JsonValue.jfloat (1501/10)),
   ("active_power_l3_w", JsonValue.jfloat (1501/10))]

/-- A tick answered 200 with the string-typed `wifi_strength` body. -/
def strTick : TickOracle :=
  ⟨none, HttpOutcome.response 200 (some (JsonValue.jobj strKvs)), dt0, none⟩

/-- A tick answered `500` with no decodable body. -/
def tick500 : TickOracle :=
  ⟨none, HttpOutcome.response 500 none, dt0, none⟩

/-- A tick returning only `wifi_strength`, as in the spec's failure scenario. -/
def badTick : TickOracle :=
  ⟨none,
   HttpOutcome.response 200 (some (JsonValue.jobj [("wifi_strength", JsonValue.jint (-50))])),
   dt0, none⟩

/-- A tick whose interval sleep itself raises. -/
def sleepFailTick : TickOracle :=
  ⟨some (PyExc.other "OSError"), HttpOutcome.failure, dt0, none⟩

/-- A successful tick whose sink write would raise — irrelevant under
`--dry-run`, where the write is never attempted. -/
def dryTick : TickOracle :=
  ⟨none, HttpOutcome.response 200 (some (JsonValue.jobj goodKvs)), dt0,
   some PyExc.influxDBError⟩

/-- The scenario body extended with an extra, unknown telemetry field. -/
def extraKvs : List (String × JsonValue) :=
  ("firmware_version", JsonValue.jstr "5.18") :: goodKvs

/-- A minimal valid configuration document with one meter. -/
def cfgJson0 : JsonValue :=
  JsonValue.jobj
    [("influxdb", JsonValue.jobj [("host", JsonValue.jstr "influx.local")]),
     ("meters", JsonValue.jarr
        [JsonValue.jobj
           [("name", JsonValue.jstr "kitchen"), ("host", JsonValue.jstr "10.0.0.5")]])]

/-- The configuration `cfgJson0` validates to. -/
def checker0 : CheckerConfig :=
  ⟨⟨"influx.local", 8086, "energy", none⟩, [⟨"kitchen", "10.0.0.5", 10⟩]⟩

/-! Helper lemmas about the pipeline and the loop. -/

/-- The guarded pipeline never sleeps: the interval sleep sits outside it. -/
theorem tick_pipeline_filter_isSleep (m : MeterConfig) (icfg : InfluxDBConfig)
    (dry : Bool) (o : TickOracle) :
    (tick_pipeline m icfg dry o).filter Event.isSleep = [] := by
  cases hg : get_json collect_data_session o.http with
  | error e => simp [tick_pipeline, hg, Event.isSleep]
  | ok j =>
    cases hp : MeterData.parse j with
    | error e => simp [tick_pipeline, hg, hp, Event.isSleep]
    | ok md =>
      cases dry with
      | true => simp [tick_pipeline, tick_deliver, hg, hp, Event.isSleep]
      | false =>
        cases hw : o.writeExc with
        | none => simp [tick_pipeline, tick_deliver, hg, hp, hw, Event.isSleep]
        | some e => simp [tick_pipeline, tick_deliver, hg, hp, hw, Event.isSleep]

/-- The guarded pipeline issues no GET: the single GET precedes it. -/
theorem tick_pipeline_filter_isHttpGet (m : MeterConfig) (icfg : InfluxDBConfig)
    (dry : Bool) (o : TickOracle) :
    (tick_pipeline m icfg dry o).filter Event.isHttpGet = [] := by
  cases hg : get_json collect_data_session o.http with
  | error e => simp [tick_pipeline, hg, Event.isHttpGet]
  | ok j =>
    cases hp : MeterData.parse j with
    | error e => simp [tick_pipeline, hg, hp, Event.isHttpGet]
    | ok md =>
      cases dry with
      | true => simp [tick_pipeline, tick_deliver, hg, hp, Event.isHttpGet]
      | false =>
        cases hw : o.writeExc with
        | none => simp [tick_pipeline, tick_deliver, hg, hp, hw, Event.isHttpGet]
        | some e => simp [tick_pipeline, tick_deliver, hg, hp, hw, Event.isHttpGet]

/-- Under `--dry-run` the guarded pipeline performs no sink write. -/
theorem tick_pipeline_dry_no_write (m : MeterConfig) (icfg : InfluxDBConfig)
    (o : TickOracle) :
    (tick_pipeline m icfg true o).filter Event.isWritePoints = [] := by
  cases hg : get_json collect_data_session o.http with
  | error e => simp [tick_pipeline, hg, Event.isWritePoints]
  | ok j =>
    cases hp : MeterData.parse j with
    | error e => simp [tick_pipeline, hg, hp, Event.isWritePoints]
    | ok md => simp [tick_pipeline, tick_deliver, hg, hp, Event.isWritePoints]

/-- A whole tick never sleeps (the sleep is emitted by the loop itself). -/
theorem tick_try_filter_isSleep (m : MeterConfig) (icfg : InfluxDBConfig)
    (dry : Bool) (url : String) (o : TickOracle) :
    (tick_try m icfg dry url o).filter Event.isSleep = [] := by
  rw [tick_try, List.filter_cons]
  simp [Event.isSleep, tick_pipeline_filter_isSleep]

/-- A whole tick contains exactly one GET: the one it starts with, carrying
the session's 10-second total timeout and `raise_for_status=True`. -/
theorem tick_try_filter_isHttpGet (m : MeterConfig) (icfg : InfluxDBConfig)
    (dry : Bool) (url : String) (o : TickOracle) :
    (tick_try m icfg dry url o).filter Event.isHttpGet =
      [Event.httpGet url 10 true] := by
  rw [tick_try, List.filter_cons]
  simp only [tick_pipeline_filter_isHttpGet]
  rfl

/-- Under `--dry-run` a whole tick performs no sink write. -/
theorem tick_try_dry_no_write (m : MeterConfig) (icfg : InfluxDBConfig)
    (url : String) (o : TickOracle) :
    (tick_try m icfg true url o).filter Event.isWritePoints = [] := by
  rw [tick_try, List.filter_cons]
  simp [Event.isWritePoints, tick_pipeline_dry_no_write]

/-- Whatever error the `try` block raises on a tick, the `except` clause
logs it: the tick's trace contains the corresponding log event. -/
theorem tick_error_logged (m : MeterConfig) (icfg : InfluxDBConfig)
    (dry : Bool) (url : String) (o : TickOracle) (e : PyExc)
    (h : tick_error dry o = some e) :
    Event.logException e ∈ tick_try m icfg dry url o := by
  rw [tick_error] at h
  rw [tick_try]
  cases hg : get_json collect_data_session o.http with
  | error e2 =>
    rw [hg] at h
    cases h
    simp [tick_pipeline, hg]
  | ok j =>
    rw [hg] at h
    cases hp : MeterData.parse j with
    | error e2 =>
      simp only [hp] at h
      cases h
      simp [tick_pipeline, hg, hp]
    | ok md =>
      simp only [hp] at h
      cases dry with
      | true => simp at h
      | false =>
        simp only [Bool.false_eq_true, if_false] at h
        simp [tick_pipeline, tick_deliver, hg, hp, h]

/-- Over any finite prefix of iterations whose sleeps all succeed, the loop
is still running, has slept exactly once per iteration, and has logged every
error its `try` blocks raised. -/
theorem run_ticks_clean (m : MeterConfig) (icfg : InfluxDBConfig) (dry : Bool)
    (url : String) (ticks : List TickOracle)
    (hn : ∀ o ∈ ticks, o.sleepExc = none) :
    (run_ticks m icfg dry url ticks).2 = LoopOutcome.running ∧
    ((run_ticks m icfg dry url ticks).1.filter Event.isSleep).length = ticks.length ∧
    ∀ o ∈ ticks, ∀ e, tick_error dry o = some e →
      Event.logException e ∈ (run_ticks m icfg dry url ticks).1 := by
  induction ticks with
  | nil => simp [run_ticks]
  | cons o rest ih =>
    have ho : o.sleepExc = none := hn o (List.mem_cons_self o rest)
    have hrest : ∀ p ∈ rest, p.sleepExc = none :=
      fun p hp => hn p (List.mem_cons_of_mem o hp)
    obtain ⟨ih1, ih2, ih3⟩ := ih hrest
    refine ⟨?_, ?_, ?_⟩
    · simp [run_ticks, ho, ih1]
    · simp only [run_ticks, ho, List.filter_cons, List.filter_append]
      simp [Event.isSleep, tick_try_filter_isSleep, ih2]
    · intro p hp e he
      rcases List.mem_cons.mp hp with h | h
      · subst h
        simp only [run_ticks, ho]
        exact List.mem_cons_of_mem _
          (List.mem_append_left _ (tick_error_logged m icfg dry url p e he))
      · simp only [run_ticks, ho]
        exact List.mem_cons_of_mem _ (List.mem_append_right _ (ih3 p h e he))

/-- Any event of an executed tick appears in the loop trace, provided no
earlier sleep raised. -/
theorem run_ticks_mem (m : MeterConfig) (icfg : InfluxDBConfig) (dry : Bool)
    (url : String) (ticks : List TickOracle) (o : TickOracle) (x : Event)
    (hn : ∀ p ∈ ticks, p.sleepExc = none) (ho : o ∈ ticks)
    (hx : x ∈ tick_try m icfg dry url o) :
    x ∈ (run_ticks m icfg dry url ticks).1 := by
  induction ticks with
  | nil => cases ho
  | cons p rest ih =>
    have hp : p.sleepExc = none := hn p (List.mem_cons_self p rest)
    simp only [run_ticks, hp]
    rcases List.mem_cons.mp ho with h | h
    · subst h
      exact List.mem_cons_of_mem _ (List.mem_append_left _ hx)
    · exact List.mem_cons_of_mem _ (List.mem_append_right _
        (ih (fun q hq => hn q (List.mem_cons_of_mem p hq)) h))

/-- The dry-run flag changes neither the loop's sleeping behaviour nor its
outcome: per oracle list, the sleep sub-trace and the outcome coincide. -/
theorem run_ticks_dry_timing (m : MeterConfig) (icfg : InfluxDBConfig)
    (url : String) (ticks : List TickOracle) :
    (run_ticks m icfg true url ticks).1.filter Event.isSleep =
      (run_ticks m icfg false url ticks).1.filter Event.isSleep ∧
    (run_ticks m icfg true url ticks).2 = (run_ticks m icfg false url ticks).2 := by
  induction ticks with
  | nil => exact ⟨rfl, rfl⟩
  | cons o rest ih =>
    cases ho : o.sleepExc with
    | some e => simp [run_ticks, ho]
    | none =>
      simp only [run_ticks, ho, List.filter_cons, List.filter_append,
        tick_try_filter_isSleep]
      exact ⟨by rw [ih.1], ih.2⟩

/-- Under `--dry-run` the loop trace contains no sink write at all. -/
theorem run_ticks_dry_no_write (m : MeterConfig) (icfg : InfluxDBConfig)
    (url : String) (ticks : List TickOracle) :
    (run_ticks m icfg true url ticks).1.filter Event.isWritePoints = [] := by
  induction ticks with
  | nil => simp [run_ticks]
  | cons o rest ih =>
    cases ho : o.sleepExc with
    | some e => simp [run_ticks, ho]
    | none =>
      simp only [run_ticks, ho, List.filter_cons, List.filter_append,
        tick_try_dry_no_write]
      simp [Event.isSleep, Event.isWritePoints, ih]

/-- A sleep that raises ends the loop: the iterations before it run
normally, the raising iteration and everything after it contribute no
events, and the exception escapes as the loop's outcome. -/
theorem run_ticks_sleep_raise (m : MeterConfig) (icfg : InfluxDBConfig)
    (dry : Bool) (url : String) (o : TickOracle) (rest : List TickOracle)
    (e : PyExc) (ho : o.sleepExc = some e) :
    ∀ pre, (∀ p ∈ pre, p.sleepExc = none) →
      run_ticks m icfg dry url (pre ++ o :: rest) =
        ((run_ticks m icfg dry url pre).1, LoopOutcome.raised e) := by
  intro pre
  induction pre with
  | nil =>
    intro _
    simp [run_ticks, ho]
  | cons p pre ih =>
    intro hn
    have hp : p.sleepExc = none := hn p (List.mem_cons_self p pre)
    simp only [List.cons_append, run_ticks, hp]
    rw [List.append_eq, ih (fun q hq => hn q (List.mem_cons_of_mem p hq))]

/-- Validation succeeds exactly when all seven required fields are present
with values of their annotated types. -/
theorem fromDict_isSome (kvs : List (String × JsonValue)) :
    (MeterData.fromDict kvs).isSome = requiredOk kvs := by
  rw [MeterData.fromDict, requiredOk]
  cases getInt? kvs "wifi_strength" <;>
    cases getFloat? kvs "total_power_import_kwh" <;>
    cases getFloat? kvs "total_power_export_kwh" <;>
    cases getFloat? kvs "active_power_w" <;>
    cases getFloat? kvs "active_power_l1_w" <;>
    cases getFloat? kvs "active_power_l2_w" <;>
    cases getFloat? kvs "active_power_l3_w" <;>
    rfl

/-- A body with a missing or mistyped required field fails pydantic
validation with `ValidationError`. -/
theorem parse_validationError (kvs : List (String × JsonValue))
    (h : requiredOk kvs = false) :
    MeterData.parse (JsonValue.jobj kvs) = Except.error PyExc.validationError := by
  have hs := fromDict_isSome kvs
  rw [h] at hs
  cases hd : MeterData.fromDict kvs with
  | none => simp [MeterData.parse, hd]
  | some md => rw [hd] at hs; simp at hs

/-- A body binding all seven required fields to well-typed values parses to
exactly those values, whatever other keys it carries. -/
theorem fromDict_some (kvs : List (String × JsonValue)) (ws : Int)
    (ti te ap l1 l2 l3 : ℚ)
    (h1 : getInt? kvs "wifi_strength" = some ws)
    (h2 : getFloat? kvs "total_power_import_kwh" = some ti)
    (h3 : getFloat? kvs "total_power_export_kwh" = some te)
    (h4 : getFloat? kvs "active_power_w" = some ap)
    (h5 : getFloat? kvs "active_power_l1_w" = some l1)
    (h6 : getFloat? kvs "active_power_l2_w" = some l2)
    (h7 : getFloat? kvs "active_power_l3_w" = some l3) :
    MeterData.fromDict kvs = some ⟨ws, ti, te, ap, l1, l2, l3⟩ := by
  rw [MeterData.fromDict, h1, h2, h3, h4, h5, h6, h7]
  rfl

/-- An absent or never-coercible binding fails the `int` field extractor. -/
theorem getInt?_none_of_noncoercible (kvs : List (String × JsonValue))
    (k : String) (hv : nonCoercible (jlookup kvs k) = true) :
    getInt? kvs k = none := by
  cases hl : jlookup kvs k with
  | none => simp [getInt?, hl]
  | some v =>
    rw [hl] at hv
    cases v <;> simp_all [getInt?, nonCoercible, hl]

/-- An absent or never-coercible binding fails the `float` field extractor. -/
theorem getFloat?_none_of_noncoercible (kvs : List (String × JsonValue))
    (k : String) (hv : nonCoercible (jlookup kvs k) = true) :
    getFloat? kvs k = none := by
  cases hl : jlookup kvs k with
  | none => simp [getFloat?, hl]
  | some v =>
    rw [hl] at hv
    cases v <;> simp_all [getFloat?, nonCoercible, hl]

/-- A required field that is absent or bound to a never-coercible value
makes the whole schema check fail. -/
theorem requiredOk_false_of_noncoercible (kvs : List (String × JsonValue))
    (k : String) (hk : k ∈ requiredFields)
    (hv : nonCoercible (jlookup kvs k) = true) :
    requiredOk kvs = false := by
  simp only [requiredFields, List.mem_cons, List.mem_singleton,
    List.not_mem_nil, or_false] at hk
  rcases hk with rfl | rfl | rfl | rfl | rfl | rfl | rfl
  · simp [requiredOk, getInt?_none_of_noncoercible kvs _ hv]
  · simp [requiredOk, getFloat?_none_of_noncoercible kvs _ hv]
  · simp [requiredOk, getFloat?_none_of_noncoercible kvs _ hv]
  · simp [requiredOk, getFloat?_none_of_noncoercible kvs _ hv]
  · simp [requiredOk, getFloat?_none_of_noncoercible kvs _ hv]
  · simp [requiredOk, getFloat?_none_of_noncoercible kvs _ hv]
  · simp [requiredOk, getFloat?_none_of_noncoercible kvs _ hv]

/-- A gather over loops that are all still running is itself still running. -/
theorem gather_running (runs : List (List Event × LoopOutcome))
    (h : ∀ r ∈ runs, r.2 = LoopOutcome.running) :
    (gather runs).2 = ProcessOutcome.running := by
  have hr : raisedErrors runs = [] := by
    rw [raisedErrors, List.filterMap_eq_nil_iff]
    intro r hrr
    rw [h r hrr]
  simp [gather, hr]

/-- A clean setup and clean sleeps keep one whole `collect_data` run in the
running state, whatever its ticks' fetches, validations and writes do. -/
theorem collect_data_clean_running (m : MeterConfig) (icfg : InfluxDBConfig)
    (dry : Bool) (s : SetupOracle) (ticks : List TickOracle)
    (hs : s.sessionExc = none) (hn : ∀ o ∈ ticks, o.sleepExc = none) :
    (collect_data m icfg dry s ticks).2 = LoopOutcome.running := by
  simp only [collect_data, hs]
  exact (run_ticks_clean m icfg dry (api_url_format m.host) ticks hn).1

/-! Claim theorems. -/

/-- C1: on every tick whose interval sleep completes, any error raised by
the fetch, the validation or the sink write is caught by the `except`
clause inside the loop and logged, and the loop unconditionally proceeds to
its next waiting phase: over any such finite oracle prefix the loop is
still running (it never terminates and never lets the error escape to
sibling loops or the supervisor), it has slept once per iteration, and
every per-tick error appears as a logged event in its trace. -/
theorem collect_data_isolates_tick_errors
    (m : MeterConfig) (icfg : InfluxDBConfig) (dry : Bool) (s : SetupOracle)
    (ticks : List TickOracle)
    (hs : s.sessionExc = none) (hn : ∀ o ∈ ticks, o.sleepExc = none) :
    (collect_data m icfg dry s ticks).2 = LoopOutcome.running ∧
    ((collect_data m icfg dry s ticks).1.filter Event.isSleep).length = ticks.length ∧
    ∀ o ∈ ticks, ∀ e, tick_error dry o = some e →
      Event.logException e ∈ (collect_data m icfg dry s ticks).1 := by
  simp only [collect_data, hs]
  exact run_ticks_clean m icfg dry (api_url_format m.host) ticks hn

/-- Witness for C1: the kitchen meter with one connection-failing tick is
still running afterwards. -/
theorem collect_data_isolates_tick_errors_witness :
    (SetupOracle.mk none).sessionExc = none ∧
    failTick.sleepExc = none ∧
    (collect_data meter0 icfg0 false (SetupOracle.mk none) [failTick]).2 =
      LoopOutcome.running :=
  ⟨rfl, rfl,
    (collect_data_isolates_tick_errors meter0 icfg0 false (SetupOracle.mk none)
      [failTick] rfl
      (by intro o ho; rw [List.mem_singleton] at ho; subst ho; rfl)).1⟩

/-- C2 counterexample: a required field of the wrong type does not
necessarily end the tick in a validation error.  Pydantic v1 coerces, so
`wifi_strength` sent as the string `"-50"` — not a JSON integer —
validates to the integer -50, a data point is constructed, and the tick
makes a write call. -/
theorem wrong_type_string_coerced_written :
    jlookup strKvs "wifi_strength" = some (JsonValue.jstr "-50") ∧
    MeterData.parse (JsonValue.jobj strKvs) = Except.ok goodMd ∧
    (tick_try meter0 icfg0 false (api_url_format meter0.host) strTick).filter
        Event.isWritePoints =
      [Event.writePoints
         [⟨"energy_consumption", [("meter", meter0.name)],
           UtcDateTime.isoformat dt0, MeterData.dict goodMd⟩]
         icfg0.retention_policy] :=
  ⟨rfl, rfl, rfl⟩

/-- C2 amended: if a tick's fetched body decodes to an object in which any
of the seven required fields is missing, or bound to a value pydantic v1
can never coerce to the annotated type (null, a list or a mapping — as
opposed to numeric strings, floats and bools, which are coerced and
accepted), validation rejects it and the tick's whole trace is the GET
followed by the logged `ValidationError`: no clock is read, no data point
is constructed, and no write call is made for that tick. -/
theorem missing_or_noncoercible_blocks_write
    (m : MeterConfig) (icfg : InfluxDBConfig) (dry : Bool) (url : String)
    (o : TickOracle) (kvs : List (String × JsonValue)) (k : String)
    (hfetch : get_json collect_data_session o.http = Except.ok (JsonValue.jobj kvs))
    (hk : k ∈ requiredFields)
    (hv : nonCoercible (jlookup kvs k) = true) :
    tick_try m icfg dry url o =
      [Event.httpGet url 10 true, Event.logException PyExc.validationError] := by
  have hbad : requiredOk kvs = false :=
    requiredOk_false_of_noncoercible kvs k hk hv
  simp only [tick_try, tick_pipeline, hfetch, parse_validationError kvs hbad]
  rfl

/-- Witness for C2's amended claim: the spec's failure scenario, a body
carrying only `wifi_strength`, misses `total_power_import_kwh`. -/
theorem missing_or_noncoercible_blocks_write_witness :
    get_json collect_data_session badTick.http =
      Except.ok (JsonValue.jobj [("wifi_strength", JsonValue.jint (-50))]) ∧
    "total_power_import_kwh" ∈ requiredFields ∧
    nonCoercible (jlookup [("wifi_strength", JsonValue.jint (-50))]
      "total_power_import_kwh") = true ∧
    tick_try meter0 icfg0 false (api_url_format meter0.host) badTick =
      [Event.httpGet (api_url_format meter0.host) 10 true,
       Event.logException PyExc.validationError] :=
  ⟨rfl, by simp [requiredFields], rfl,
    missing_or_noncoercible_blocks_write meter0 icfg0 false
      (api_url_format meter0.host) badTick
      [("wifi_strength", JsonValue.jint (-50))] "total_power_import_kwh"
      rfl (by simp [requiredFields]) rfl⟩

/-- C3: on a successful tick the produced point has measurement
`energy_consumption`, exactly one tag binding `meter` to the configured
name, a field set that is exactly the reading's seven attributes with their
values unchanged, and a time string that is the ISO-8601 `+00:00`-offset
rendering of the clock instant read at the transform step: the trace shows
the clock being read strictly after the HTTP GET, and the point's time is
that very reading. -/
theorem tick_success_datapoint_shape
    (m : MeterConfig) (icfg : InfluxDBConfig) (url : String) (o : TickOracle)
    (j : JsonValue) (md : MeterData)
    (hfetch : get_json collect_data_session o.http = Except.ok j)
    (hparse : MeterData.parse j = Except.ok md)
    (hw : o.writeExc = none) :
    tick_try m icfg false url o =
      [Event.httpGet url 10 true, Event.logDebugData md, Event.readClock o.now,
       Event.writePoints
         [⟨"energy_consumption", [("meter", m.name)],
           UtcDateTime.isoformat o.now, MeterData.dict md⟩]
         icfg.retention_policy] ∧
    MeterData.dict md =
      [("wifi_strength", FieldValue.fint md.wifi_strength),
       ("total_power_import_kwh", FieldValue.ffloat md.total_power_import_kwh),
       ("total_power_export_kwh", FieldValue.ffloat md.total_power_export_kwh),
       ("active_power_w", FieldValue.ffloat md.active_power_w),
       ("active_power_l1_w", FieldValue.ffloat md.active_power_l1_w),
       ("active_power_l2_w", FieldValue.ffloat md.active_power_l2_w),
       ("active_power_l3_w", FieldValue.ffloat md.active_power_l3_w)] ∧
    UtcDateTime.isoformat o.now = UtcDateTime.isoBase o.now ++ "+00:00" := by
  refine ⟨?_, rfl, rfl⟩
  simp only [tick_try, tick_pipeline, tick_deliver, hfetch, hparse, hw,
    make_json_body, Bool.false_eq_true, if_false]
  rfl

/-- Witness for C3: the kitchen scenario tick produces exactly the expected
single point. -/
theorem tick_success_datapoint_shape_witness :
    get_json collect_data_session goodTick.http =
      Except.ok (JsonValue.jobj goodKvs) ∧
    MeterData.parse (JsonValue.jobj goodKvs) = Except.ok goodMd ∧
    goodTick.writeExc = none ∧
    tick_try meter0 icfg0 false (api_url_format meter0.host) goodTick =
      [Event.httpGet (api_url_format meter0.host) 10 true,
       Event.logDebugData goodMd, Event.readClock goodTick.now,
       Event.writePoints
         [⟨"energy_consumption", [("meter", meter0.name)],
           UtcDateTime.isoformat goodTick.now, MeterData.dict goodMd⟩]
         icfg0.retention_policy] :=
  ⟨rfl, rfl, rfl,
    (tick_success_datapoint_shape meter0 icfg0 (api_url_format meter0.host)
      goodTick (JsonValue.jobj goodKvs) goodMd rfl rfl rfl).1⟩

/-- C4 counterexample: a `303 See Other` answer carrying a body but no
`Location` header is delivered to the caller as-is by aiohttp (the redirect
cannot be followed).  303 is not a 2xx status, yet with
`raise_for_status=True` — whose documented contract raises only for
statuses at or above 400 — the fetch does not fail: it hands the body on
to the validation step, and the tick even writes a point. -/
theorem non2xx_303_reaches_validation :
    (¬ (200 ≤ 303 ∧ 303 ≤ 299)) ∧
    bodyAllowed 303 = true ∧
    get_json collect_data_session tick303.http =
      Except.ok (JsonValue.jobj goodKvs) ∧
    (tick_try meter0 icfg0 false (api_url_format meter0.host) tick303).filter
        Event.isWritePoints =
      [Event.writePoints
         [⟨"energy_consumption", [("meter", meter0.name)],
           UtcDateTime.isoformat dt0, MeterData.dict goodMd⟩]
         icfg0.retention_policy] :=
  ⟨by decide, rfl, rfl, rfl⟩

/-- C4 amended: every fetch issues a single HTTP GET to
`http://{host}/api/v1/data` through a session with a total timeout of 10
seconds and `raise_for_status=True`; a response with status at least 400
(rather than: any non-2xx status) makes the fetch fail for that tick, so
no body reaches the validation step; a status below 400 that forbids a
payload (1xx, 204, 304) fails that tick at JSON decoding instead — logged,
no write; only a body-bearing status below 400, such as an unfollowable
303, hands its body to validation. -/
theorem fetch_single_get_and_status_policy
    (m : MeterConfig) (icfg : InfluxDBConfig) (dry : Bool) (o : TickOracle)
    (st : Nat) (b : Option JsonValue)
    (ho : o.http = HttpOutcome.response st b) :
    api_url_format m.host = "http://" ++ m.host ++ "/api/v1/data" ∧
    collect_data_session = ⟨10, true⟩ ∧
    (tick_try m icfg dry (api_url_format m.host) o).filter Event.isHttpGet =
      [Event.httpGet (api_url_format m.host) 10 true] ∧
    (400 ≤ st →
      tick_try m icfg dry (api_url_format m.host) o =
        [Event.httpGet (api_url_format m.host) 10 true,
         Event.logException (PyExc.clientResponseError st)]) ∧
    (st < 400 → bodyAllowed st = false →
      tick_try m icfg dry (api_url_format m.host) o =
        [Event.httpGet (api_url_format m.host) 10 true,
         Event.logException PyExc.contentTypeError]) := by
  refine ⟨rfl, rfl,
    tick_try_filter_isHttpGet m icfg dry (api_url_format m.host) o, ?_, ?_⟩
  · intro hst
    have hg : get_json collect_data_session o.http =
        Except.error (PyExc.clientResponseError st) := by
      rw [ho]
      simp [get_json, collect_data_session, hst]
    simp only [tick_try, tick_pipeline, hg]
    rfl
  · intro hlt hnb
    have hg : get_json collect_data_session o.http =
        Except.error PyExc.contentTypeError := by
      rw [ho]
      simp [get_json, collect_data_session, Nat.not_le.mpr hlt, hnb]
    simp only [tick_try, tick_pipeline, hg]
    rfl

/-- Witness for C4's amended claim: a 500 response fails the fetch with the
logged status error, and a 304 — payload-less by RFC 7230 — fails at the
decode step. -/
theorem fetch_single_get_and_status_policy_witness :
    tick500.http = HttpOutcome.response 500 none ∧ 400 ≤ 500 ∧
    tick_try meter0 icfg0 false (api_url_format meter0.host) tick500 =
      [Event.httpGet (api_url_format meter0.host) 10 true,
       Event.logException (PyExc.clientResponseError 500)] ∧
    tick304.http = HttpOutcome.response 304 (some (JsonValue.jobj goodKvs)) ∧
    (304 < 400 ∧ bodyAllowed 304 = false) ∧
    tick_try meter0 icfg0 false (api_url_format meter0.host) tick304 =
      [Event.httpGet (api_url_format meter0.host) 10 true,
       Event.logException PyExc.contentTypeError] :=
  ⟨rfl, by decide,
    (fetch_single_get_and_status_policy meter0 icfg0 false tick500 500 none
      rfl).2.2.2.1 (by decide),
    rfl, by decide,
    (fetch_single_get_and_status_policy meter0 icfg0 false tick304 304
      (some (JsonValue.jobj goodKvs)) rfl).2.2.2.2 (by decide) rfl⟩

/-- C5: under dry-run no write call reaches the sink anywhere in the run;
for every executed tick whose fetch and validation succeed, the would-be
payload is logged at debug level and the tick raises nothing (the write
oracle is never consulted, so the tick completes successfully); and the
loop's waiting/polling timing is unchanged: on the same oracles the
dry-run trace has exactly the sleep sub-trace and outcome of the real
run. -/
theorem dry_run_suppresses_writes
    (m : MeterConfig) (icfg : InfluxDBConfig) (s : SetupOracle)
    (ticks : List TickOracle)
    (hs : s.sessionExc = none) (hn : ∀ o ∈ ticks, o.sleepExc = none) :
    (collect_data m icfg true s ticks).1.filter Event.isWritePoints = [] ∧
    (collect_data m icfg true s ticks).1.filter Event.isSleep =
      (collect_data m icfg false s ticks).1.filter Event.isSleep ∧
    (collect_data m icfg true s ticks).2 = (collect_data m icfg false s ticks).2 ∧
    ∀ o ∈ ticks, ∀ j md, get_json collect_data_session o.http = Except.ok j →
      MeterData.parse j = Except.ok md →
      (Event.logDebugDryRun (make_json_body m.name (UtcDateTime.isoformat o.now) md)
          ∈ (collect_data m icfg true s ticks).1 ∧
        tick_error true o = none) := by
  simp only [collect_data, hs]
  refine ⟨run_ticks_dry_no_write m icfg (api_url_format m.host) ticks,
    (run_ticks_dry_timing m icfg (api_url_format m.host) ticks).1,
    (run_ticks_dry_timing m icfg (api_url_format m.host) ticks).2, ?_⟩
  intro o ho j md hj hm
  constructor
  · apply run_ticks_mem m icfg true (api_url_format m.host) ticks o _ hn ho
    simp [tick_try, tick_pipeline, tick_deliver, hj, hm]
  · simp [tick_error, hj, hm]

/-- Witness for C5: one dry-run tick whose write would have failed still
produces no write call. -/
theorem dry_run_suppresses_writes_witness :
    (SetupOracle.mk none).sessionExc = none ∧
    dryTick.sleepExc = none ∧
    (collect_data meter0 icfg0 true (SetupOracle.mk none) [dryTick]).1.filter
        Event.isWritePoints = [] :=
  ⟨rfl, rfl,
    (dry_run_suppresses_writes meter0 icfg0 (SetupOracle.mk none) [dryTick] rfl
      (by intro o ho; rw [List.mem_singleton] at ho; subst ho; rfl)).1⟩

/-- C6: a body containing all seven required fields with well-typed values,
whatever extra fields it also carries, validates successfully to exactly
those values, and the resulting reading's exported field set — the `fields`
of the written point — consists of exactly the seven required attributes,
so the extra fields are accepted but never appear in the written point. -/
theorem extra_fields_tolerated
    (kvs : List (String × JsonValue)) (ws : Int) (ti te ap l1 l2 l3 : ℚ)
    (h1 : getInt? kvs "wifi_strength" = some ws)
    (h2 : getFloat? kvs "total_power_import_kwh" = some ti)
    (h3 : getFloat? kvs "total_power_export_kwh" = some te)
    (h4 : getFloat? kvs "active_power_w" = some ap)
    (h5 : getFloat? kvs "active_power_l1_w" = some l1)
    (h6 : getFloat? kvs "active_power_l2_w" = some l2)
    (h7 : getFloat? kvs "active_power_l3_w" = some l3) :
    MeterData.parse (JsonValue.jobj kvs) =
      Except.ok ⟨ws, ti, te, ap, l1, l2, l3⟩ ∧
    (MeterData.dict ⟨ws, ti, te, ap, l1, l2, l3⟩).map Prod.fst =
      ["wifi_strength", "total_power_import_kwh", "total_power_export_kwh",
       "active_power_w", "active_power_l1_w", "active_power_l2_w",
       "active_power_l3_w"] := by
  refine ⟨?_, rfl⟩
  simp only [MeterData.parse,
    fromDict_some kvs ws ti te ap l1 l2 l3 h1 h2 h3 h4 h5 h6 h7]

/-- Witness for C6: the scenario body with an extra `firmware_version`
field validates, and the exported field set is exactly the seven. -/
theorem extra_fields_tolerated_witness :
    getInt? extraKvs "wifi_strength" = some (-50) ∧
    MeterData.parse (JsonValue.jobj extraKvs) = Except.ok goodMd ∧
    (MeterData.dict goodMd).map Prod.fst =
      ["wifi_strength", "total_power_import_kwh", "total_power_export_kwh",
       "active_power_w", "active_power_l1_w", "active_power_l2_w",
       "active_power_l3_w"] :=
  ⟨rfl,
    (extra_fields_tolerated extraKvs (-50) (241/2) 0 (2251/5) 150 (1501/10)
      (1501/10) rfl rfl rfl rfl rfl rfl rfl).1,
    (extra_fields_tolerated extraKvs (-50) (241/2) 0 (2251/5) 150 (1501/10)
      (1501/10) rfl rfl rfl rfl rfl rfl rfl).2⟩

/-- C7 counterexample: configuration loading accepts a meter entry whose
`interval` is 0 — the declared `int` field carries no positivity
constraint — so not every accepted `MeterConfig` has a poll interval
strictly greater than 0. -/
theorem interval_zero_accepted :
    MeterConfig.parse (JsonValue.jobj
      [("name", JsonValue.jstr "kitchen"), ("host", JsonValue.jstr "10.0.0.5"),
       ("interval", JsonValue.jint 0)]) =
      Except.ok ⟨"kitchen", "10.0.0.5", 0⟩ ∧
    ¬ ((0 : Int) > 0) :=
  ⟨rfl, by decide⟩

/-- C7 amended: a meter entry that omits `interval` gets the default of 10
seconds, but the interval is not validated for positivity: configuration
loading accepts every integer interval value, positive or not, unchanged. -/
theorem interval_default_and_unvalidated
    (kvs : List (String × JsonValue)) (n h : String)
    (hn : getStr? kvs "name" = some n) (hh : getStr? kvs "host" = some h)
    (hi : jlookup kvs "interval" = none) :
    MeterConfig.parse (JsonValue.jobj kvs) = Except.ok ⟨n, h, 10⟩ ∧
    ∀ i : Int, MeterConfig.parse (JsonValue.jobj
        [("name", JsonValue.jstr n), ("host", JsonValue.jstr h),
         ("interval", JsonValue.jint i)]) =
      Except.ok ⟨n, h, i⟩ := by
  constructor
  · simp only [MeterConfig.parse, hn, hh, hi]
  · intro i
    rfl

/-- Witness for C7's amended claim: an entry without `interval` parses to
the default 10. -/
theorem interval_default_and_unvalidated_witness :
    getStr? [("name", JsonValue.jstr "kitchen"),
             ("host", JsonValue.jstr "10.0.0.5")] "name" = some "kitchen" ∧
    jlookup [("name", JsonValue.jstr "kitchen"),
             ("host", JsonValue.jstr "10.0.0.5")] "interval" = none ∧
    MeterConfig.parse (JsonValue.jobj
        [("name", JsonValue.jstr "kitchen"), ("host", JsonValue.jstr "10.0.0.5")]) =
      Except.ok ⟨"kitchen", "10.0.0.5", 10⟩ :=
  ⟨rfl, rfl,
    (interval_default_and_unvalidated
      [("name", JsonValue.jstr "kitchen"), ("host", JsonValue.jstr "10.0.0.5")]
      "kitchen" "10.0.0.5" rfl rfl rfl).1⟩

/-- C8 counterexample: with a perfectly valid configuration, an exception
raised while creating the HTTP session of the only meter's loop — outside
the per-tick handler — escapes through `asyncio.gather` and terminates the
process, so configuration errors are not the only error kind that can
terminate it. -/
theorem non_config_error_terminates_process :
    load_config (ConfigSource.content cfgJson0) = Except.ok checker0 ∧
    run (ConfigSource.content cfgJson0) false
        [(⟨some (PyExc.other "RuntimeError")⟩, [])] =
      ([], ProcessOutcome.crashed (PyExc.other "RuntimeError")) ∧
    PyExc.isConfigError (PyExc.other "RuntimeError") = false :=
  ⟨rfl, rfl, rfl⟩

/-- C8 amended: a malformed or missing configuration file makes the run
fail immediately — its trace is empty, so no poll loop starts, no fetch is
issued and no write occurs — and per-tick fetch, validation and sink-write
errors never terminate the process; configuration errors are however not
the only terminating kind, since an exception escaping a loop outside its
per-tick handler (session creation or the interval sleep) also crashes the
process. -/
theorem config_error_aborts_startup
    (src : ConfigSource) (dry : Bool)
    (oracles : List (SetupOracle × List TickOracle)) :
    (∀ e, load_config src = Except.error e →
       run src dry oracles = ([], ProcessOutcome.configAbort e)) ∧
    (∀ cfg, load_config src = Except.ok cfg →
       (∀ p ∈ oracles, p.1.sessionExc = none ∧ ∀ o ∈ p.2, o.sleepExc = none) →
       (run src dry oracles).2 = ProcessOutcome.running) := by
  constructor
  · intro e he
    simp [run, he]
  · intro cfg hc hclean
    simp only [run, hc]
    apply gather_running
    intro r hr
    simp only [List.mem_map] at hr
    obtain ⟨p, hp, rfl⟩ := hr
    obtain ⟨a, b⟩ := p
    have hmem : b ∈ oracles := (List.of_mem_zip hp).2
    obtain ⟨hs, hsleep⟩ := hclean b hmem
    exact collect_data_clean_running a cfg.influxdb dry b.1 b.2 hs hsleep

/-- Witness for C8's amended claim: a missing file aborts with an empty
trace; a valid configuration with a clean one-meter oracle whose only tick
fails its fetch leaves the process running. -/
theorem config_error_aborts_startup_witness :
    load_config ConfigSource.missing = Except.error PyExc.fileNotFoundError ∧
    run ConfigSource.missing false [] =
      ([], ProcessOutcome.configAbort PyExc.fileNotFoundError) ∧
    load_config (ConfigSource.content cfgJson0) = Except.ok checker0 ∧
    (run (ConfigSource.content cfgJson0) false
        [(SetupOracle.mk none, [failTick])]).2 = ProcessOutcome.running :=
  ⟨rfl,
    (config_error_aborts_startup ConfigSource.missing false []).1
      PyExc.fileNotFoundError rfl,
    rfl,
    (config_error_aborts_startup (ConfigSource.content cfgJson0) false
        [(SetupOracle.mk none, [failTick])]).2 checker0 rfl
      (by
        intro p hp
        rw [List.mem_singleton] at hp
        subst hp
        refine ⟨rfl, ?_⟩
        intro o ho
        rw [List.mem_singleton] at ho
        subst ho
        rfl)⟩

/-- C9: for a meter whose endpoint returns a valid reading, the loop's
first GET happens only after one full interval of waiting — the loop trace
starts with the interval sleep, immediately followed by the GET — and the
successful tick performs exactly one write call, whose payload is a
single-point batch carrying measurement `energy_consumption`, the tag
binding `meter` to the configured name, and the reading's seven returned
field values unchanged. -/
theorem first_poll_after_interval_single_write
    (m : MeterConfig) (icfg : InfluxDBConfig) (o : TickOracle)
    (rest : List TickOracle) (j : JsonValue) (md : MeterData)
    (hsleep : o.sleepExc = none)
    (hfetch : get_json collect_data_session o.http = Except.ok j)
    (hparse : MeterData.parse j = Except.ok md)
    (hw : o.writeExc = none) :
    (∃ tail, (collect_data m icfg false (SetupOracle.mk none) (o :: rest)).1 =
       Event.sleep m.interval ::
         Event.httpGet (api_url_format m.host) 10 true :: tail) ∧
    (tick_try m icfg false (api_url_format m.host) o).filter Event.isWritePoints =
      [Event.writePoints
         [⟨"energy_consumption", [("meter", m.name)],
           UtcDateTime.isoformat o.now, MeterData.dict md⟩]
         icfg.retention_policy] := by
  constructor
  · refine ⟨tick_pipeline m icfg false o ++
      (run_ticks m icfg false (api_url_format m.host) rest).1, ?_⟩
    simp only [collect_data, run_ticks, hsleep, tick_try]
    rfl
  · simp only [tick_try, tick_pipeline, tick_deliver, hfetch, hparse, hw,
      Bool.false_eq_true, if_false]
    rfl

/-- Witness for C9: the kitchen scenario tick yields exactly one write call
with the expected single point. -/
theorem first_poll_after_interval_single_write_witness :
    goodTick.sleepExc = none ∧
    MeterData.parse (JsonValue.jobj goodKvs) = Except.ok goodMd ∧
    (tick_try meter0 icfg0 false (api_url_format meter0.host) goodTick).filter
        Event.isWritePoints =
      [Event.writePoints
         [⟨"energy_consumption", [("meter", meter0.name)],
           UtcDateTime.isoformat goodTick.now, MeterData.dict goodMd⟩]
         icfg0.retention_policy] :=
  ⟨rfl, rfl,
    (first_poll_after_interval_single_write meter0 icfg0 goodTick []
      (JsonValue.jobj goodKvs) goodMd rfl rfl rfl rfl).2⟩

/-- C10: the catch-and-continue protection covers only the
fetch→validate→transform→write pipeline.  Session creation and the interval
sleep happen outside the `try` handler, so an exception raised in either
terminates that meter's loop: the exception escapes as the loop's outcome,
nothing further is executed, and the trace gains no logged-and-swallowed
event for it.  (URL construction, also outside the handler, is the total
function `api_url_format` and cannot raise.) -/
theorem outside_handler_exceptions_escape
    (m : MeterConfig) (icfg : InfluxDBConfig) (dry : Bool) (e : PyExc) :
    (∀ ticks, collect_data m icfg dry (SetupOracle.mk (some e)) ticks =
       ([], LoopOutcome.raised e)) ∧
    (∀ pre o rest, (∀ p ∈ pre, p.sleepExc = none) → o.sleepExc = some e →
       collect_data m icfg dry (SetupOracle.mk none) (pre ++ o :: rest) =
         ((collect_data m icfg dry (SetupOracle.mk none) pre).1,
           LoopOutcome.raised e)) := by
  constructor
  · intro ticks
    rfl
  · intro pre o rest hn ho
    simp only [collect_data]
    exact run_ticks_sleep_raise m icfg dry (api_url_format m.host) o rest e ho pre hn

/-- Witness for C10: after one clean tick, a raising sleep ends the kitchen
loop with the escaping exception. -/
theorem outside_handler_exceptions_escape_witness :
    goodTick.sleepExc = none ∧
    sleepFailTick.sleepExc = some (PyExc.other "OSError") ∧
    collect_data meter0 icfg0 false (SetupOracle.mk none)
        ([goodTick] ++ sleepFailTick :: []) =
      ((collect_data meter0 icfg0 false (SetupOracle.mk none) [goodTick]).1,
        LoopOutcome.raised (PyExc.other "OSError")) :=
  ⟨rfl, rfl,
    (outside_handler_exceptions_escape meter0 icfg0 false
        (PyExc.other "OSError")).2 [goodTick] sleepFailTick []
      (by intro p hp; rw [List.mem_singleton] at hp; subst hp; rfl) rfl⟩

end Hw2Influx
